import Mathlib

/-!
Verification development for the imageapi repository: a shallow embedding of
the generation orchestration layer (provider registry, request normalization,
image staging, provider adapters, post-processing) as executable Lean
definitions, together with theorems settling the frozen specification claims.

Conventions of the embedding:
  - Go byte slices are `List Nat`, Go strings are `String`, Go int and int64
    are `Int` (no arithmetic in the modelled code comes near 64-bit overflow).
  - External collaborators (HTTP transport, the image host, the image codecs
    of the standard library and chai2010/webp, base64) are modelled as
    function-valued parameters: the repository code treats them as opaque
    calls, and every claim here is about the control flow of the repository
    around them, never about codec internals.
  - Handler side effects that claims refer to (staging uploads, the staging
    delete, the provider call, the final upload) are reified as an ordered
    event trace.
-/

/-- ModelCapabilities from providers/provider.go: a provider-qualified model
name, the optional parameters it honors, and its size bounds. -/
structure ModelCapabilities where
  name : String
  supportedParams : List String
  maxWidth : Int
  maxHeight : Int
deriving DecidableEq

/-- GenerationInput from providers/provider.go: the normalized request handed
to every provider adapter. -/
structure GenerationInput where
  prompt : String
  imageBytes : List Nat
  imageURL : String
  width : Int
  height : Int
  model : String
  seed : Int
  steps : Int
deriving DecidableEq

/-- One registered provider of the registry built by initializeProviders in
the main package: its registry key, its RequiresImageURL answer and its
GetModels list. -/
structure RegisteredProvider where
  name : String
  requiresImageURL : Bool
  models : List ModelCapabilities
deriving DecidableEq

/-- dreamiflyModels from providers/dreamifly.go. -/
def dreamiflyModels : List ModelCapabilities :=
  [⟨"Flux-Kontext", ["steps", "seed", "image"], 1920, 1920⟩,
   ⟨"Qwen-Image-Edit", ["steps", "seed", "image"], 1920, 1920⟩,
   ⟨"Wai-SDXL-V150", ["steps", "seed"], 1920, 1920⟩,
   ⟨"Flux-Krea", ["steps", "seed"], 1920, 1920⟩,
   ⟨"HiDream-full-fp8", ["steps", "seed"], 1920, 1920⟩,
   ⟨"Qwen-Image", ["steps", "seed"], 1920, 1920⟩]

/-- falAIModels from the Fal.ai provider file. -/
def falAIModels : List ModelCapabilities :=
  [⟨"bytedance/seedream/v4/edit", ["seed", "image"], 4096, 4096⟩]

/-- modelScopeModels from providers/utils.go. -/
def modelScopeModels : List ModelCapabilities :=
  [⟨"Qwen/Qwen-Image", ["seed"], 2048, 2048⟩,
   ⟨"Qwen/Qwen-Image-Edit", ["seed", "image"], 2048, 2048⟩]

/-- pollinationsAIModels from providers/pollinations_ai.go. -/
def pollinationsAIModels : List ModelCapabilities :=
  [⟨"flux", ["seed"], 1024, 1024⟩,
   ⟨"kontext", ["seed", "image"], 1024, 1024⟩]

/-- The provider registry of initializeProviders with every provider
configured (all API keys present): Dreamifly, fal_ai, Modelscope and
Pollinations_ai, each with its GetName key and RequiresImageURL answer
from its source file. -/
def providerRegistry : List RegisteredProvider :=
  [⟨"Dreamifly", false, dreamiflyModels⟩,
   ⟨"fal_ai", true, falAIModels⟩,
   ⟨"Modelscope", true, modelScopeModels⟩,
   ⟨"Pollinations_ai", true, pollinationsAIModels⟩]

/-- Registry lookup, as providerRegistry[providerName] in the handlers. -/
def findProvider (providerName : String) : Option RegisteredProvider :=
  providerRegistry.find? (fun p => p.name == providerName)

/-- Capability lookup for a provider and model pair. -/
def findModelCapability (providerName modelName : String) : Option ModelCapabilities :=
  match findProvider providerName with
  | none => none
  | some p => p.models.find? (fun m => m.name == modelName)

/-- Splits a character list at the first occurrence of the given character:
the part before it and the part after it, or none when it is absent. -/
def splitAtFirst (c : Char) : List Char → Option (List Char × List Char)
  | [] => none
  | ch :: rest =>
    if ch = c then some ([], rest)
    else
      match splitAtFirst c rest with
      | none => none
      | some (a, b) => some (ch :: a, b)

/-- Whether the second string is a leading piece of the first, as
strings.HasPrefix. -/
def strStartsWith (s pre : String) : Bool := pre.data.isPrefixOf s.data

/-- ParseModelName from providers: strings.SplitN(fullModelName, "/", 2) and
a shape check; both parts must be non-empty. -/
def parseModelName (fullModelName : String) : Except String (String × String) :=
  match splitAtFirst ('/') fullModelName.data with
  | none => Except.error ("invalid model format")
  | some (p, m) =>
    if p.isEmpty || m.isEmpty then Except.error ("invalid model format")
    else Except.ok (String.mk p, String.mk m)

/-- The width and height defaulting of both handlers: a zero (absent or
unparsable) dimension becomes 1024, every other value is kept. -/
def orDefault1024 (x : Int) : Int := if x = 0 then 1024 else x

/-- The query parameter list built by PollinationsAIProvider.Generate, in
insertion order (url.Values.Encode only reorders keys; presence and values
are unchanged). The "image" parameter is added only when an image URL is
present, and the "seed" parameter only when the seed is non-zero. -/
def pollinationsQueryParams (input : GenerationInput) : List (String × String) :=
  (if input.imageURL == "" then [] else [("image", input.imageURL)]) ++
  [("model", input.model),
   ("width", toString input.width),
   ("height", toString input.height)] ++
  (if input.seed = 0 then [] else [("seed", toString input.seed)]) ++
  [("nologo", "true")]

/-- Events of a single orchestration run, in the order the handler performs
them: the staging upload, the staging delete, the provider Generate call
(with the exact input it receives), and the final image upload. -/
inductive Ev
  | uploadTempImage (url id : String)
  | deleteTempImage (id : String)
  | callProvider (input : GenerationInput)
  | uploadFinalImage
deriving DecidableEq

/-- Whether an event is the staging delete. -/
def Ev.isDelete : Ev → Bool
  | Ev.deleteTempImage _ => true
  | _ => false

/-- Number of staging delete invocations in a trace. -/
def countDeletes (evs : List Ev) : Nat := evs.countP Ev.isDelete

/-- The response the handler sends. -/
inductive HandlerResp
  | httpError (status : Int) (msg : String)
  | inlineImage (bytes : List Nat)
  | jsonURL (url : String)
deriving DecidableEq

/-- The hard-coded image requirement check of both handlers: only the two
Dreamifly edit models are listed. -/
def requiresImageModel (fullModel : String) : Bool :=
  fullModel == "Dreamifly/Flux-Kontext" || fullModel == "Dreamifly/Qwen-Image-Edit"

/-- The external collaborators of handleGenerate, as opaque behaviors:
processImage is the resize-and-JPEG-compress step (none on decode or encode
failure), uploadTemp is the staging upload (direct URL and image id on
success), generate is the provider adapter call, convert is convertToWebP
(none on decode or encode failure), uploadFinal is the final host upload. -/
structure WebCollab where
  processImage : List Nat → Option (List Nat)
  hostConfigured : Bool
  uploadTemp : Option (String × String)
  generate : GenerationInput → Option (List Nat)
  convert : List Nat → Option (List Nat)
  uploadToHost : Bool
  uploadFinal : List Nat → Option String

/-- The parsed multipart form of handleGenerate, after the image has been
retrieved (from the file field or by downloading the imageUrl field):
width and height are 0 when absent or unparsable, stepsField and seedField
are present only when the form value parsed, randSeed is the
rand.Int63n(1000000) default seed. -/
structure WebForm where
  fullModel : String
  prompt : String
  widthField : Int
  heightField : Int
  stepsField : Option Int
  seedField : Option Int
  imageBytes : List Nat
  randSeed : Int
deriving DecidableEq

/-- Sections 3 to 7 of handleGenerate in the main package, from the
image-required validation through the response, given the normalized input:
call the provider, reject empty output, convert to WebP falling back to the
original bytes on failure, then deliver inline or through the host. -/
def generateSection (form : WebForm) (c : WebCollab) (input : GenerationInput) :
    List Ev × HandlerResp :=
  if requiresImageModel form.fullModel && input.imageBytes.isEmpty then
    ([], HandlerResp.httpError 400 ("model requires an image"))
  else
    match c.generate input with
    | none => ([Ev.callProvider input], HandlerResp.httpError 500 ("error from provider"))
    | some out =>
      if out.isEmpty then
        ([Ev.callProvider input], HandlerResp.httpError 500 ("provider did not return any image data"))
      else
        let webpBytes := (c.convert out).getD out
        if !c.uploadToHost then
          ([Ev.callProvider input], HandlerResp.inlineImage webpBytes)
        else if !c.hostConfigured then
          ([Ev.callProvider input], HandlerResp.httpError 500 ("image hosting is not configured"))
        else
          match c.uploadFinal webpBytes with
          | none => ([Ev.callProvider input, Ev.uploadFinalImage],
                     HandlerResp.httpError 500 ("failed to upload final image"))
          | some url => ([Ev.callProvider input, Ev.uploadFinalImage], HandlerResp.jsonURL url)

/-- The normalized GenerationInput handleGenerate builds before the image
section: defaulted dimensions, the random default seed, and the optional
steps and seed form fields applied on top. -/
def webBaseInput (form : WebForm) (modelName : String) : GenerationInput :=
  let baseInput : GenerationInput :=
    { prompt := form.prompt, imageBytes := [], imageURL := "",
      width := orDefault1024 form.widthField, height := orDefault1024 form.heightField,
      model := modelName, seed := form.randSeed, steps := 0 }
  let input1 := match form.stepsField with
    | some s => { baseInput with steps := s }
    | none => baseInput
  match form.seedField with
  | some s => { input1 with seed := s }
  | none => input1

/-- handleGenerate in the main package, from model parsing onward: resolve
the provider, build the normalized input, process and (for by-URL providers)
stage the input image, then run the generation section. The staging delete
is the deferred cleanup: it runs at function exit on every path entered
after a successful staging upload, guarded by a non-empty image id. -/
def handleGenerateModel (form : WebForm) (c : WebCollab) : List Ev × HandlerResp :=
  match parseModelName form.fullModel with
  | Except.error e => ([], HandlerResp.httpError 400 e)
  | Except.ok (providerName, modelName) =>
    match findProvider providerName with
    | none => ([], HandlerResp.httpError 400 ("provider not found or not configured"))
    | some prov =>
      let input2 := webBaseInput form modelName
      if form.imageBytes.isEmpty then generateSection form c input2
      else
        match c.processImage form.imageBytes with
        | none => ([], HandlerResp.httpError 500 ("failed to process image"))
        | some processed =>
          let input3 := { input2 with imageBytes := processed }
          if prov.requiresImageURL then
            if !c.hostConfigured then
              ([], HandlerResp.httpError 500 ("image hosting is not configured"))
            else
              match c.uploadTemp with
              | none => ([], HandlerResp.httpError 500 ("failed to upload temporary image"))
              | some (url, id) =>
                let input4 := { input3 with imageURL := url }
                let r := generateSection form c input4
                (Ev.uploadTempImage url id :: r.1 ++
                   (if id == "" then [] else [Ev.deleteTempImage id]), r.2)
          else generateSection form c input3

/-- The decoded JSON body of the v1 generate endpoint, plus the random
default seed drawn when the request seed is zero. -/
structure APIRequest where
  prompt : String
  imageURL : String
  width : Int
  height : Int
  model : String
  seed : Int
  steps : Int
  randSeed : Int
deriving DecidableEq

/-- The external collaborators of handleAPIGenerate; download is the
DownloadFile call on the request image_url. -/
structure APICollab where
  download : Option (List Nat)
  processImage : List Nat → Option (List Nat)
  hostConfigured : Bool
  uploadTemp : Option (String × String)
  generate : GenerationInput → Option (List Nat)
  convert : List Nat → Option (List Nat)
  uploadFinal : List Nat → Option String

/-- Steps 5 to 7 of handleAPIGenerate: the image-required validation (which
inspects the request image_url field, not the staged bytes), the provider
call, WebP conversion with fallback, and the unconditional final upload. -/
def apiGenerateSection (req : APIRequest) (c : APICollab) (input : GenerationInput) :
    List Ev × HandlerResp :=
  if requiresImageModel req.model && (req.imageURL == "") then
    ([], HandlerResp.httpError 400 ("model requires an image_url"))
  else
    match c.generate input with
    | none => ([Ev.callProvider input], HandlerResp.httpError 500 ("error from provider"))
    | some out =>
      if out.isEmpty then
        ([Ev.callProvider input], HandlerResp.httpError 500 ("provider did not return any image data"))
      else
        let webpBytes := (c.convert out).getD out
        if !c.hostConfigured then
          ([Ev.callProvider input], HandlerResp.httpError 500 ("image hosting is not configured"))
        else
          match c.uploadFinal webpBytes with
          | none => ([Ev.callProvider input, Ev.uploadFinalImage],
                     HandlerResp.httpError 500 ("failed to upload final image"))
          | some url => ([Ev.callProvider input, Ev.uploadFinalImage], HandlerResp.jsonURL url)

/-- The normalized GenerationInput handleAPIGenerate builds before the image
section: defaulted dimensions and a random seed drawn when the request seed
is zero. -/
def apiBaseInput (req : APIRequest) (modelName : String) : GenerationInput :=
  { prompt := req.prompt, imageBytes := [], imageURL := "",
    width := orDefault1024 req.width, height := orDefault1024 req.height,
    model := modelName,
    seed := if req.seed = 0 then req.randSeed else req.seed,
    steps := req.steps }

/-- handleAPIGenerate in the main package: validate prompt and model, resolve
the provider, default dimensions, draw a random seed when the request seed is
zero, download and process the input image, stage it for by-URL providers
(the temporary image is deliberately never deleted on this endpoint), then
run the generation section. -/
def handleAPIGenerateModel (req : APIRequest) (c : APICollab) : List Ev × HandlerResp :=
  if req.prompt == "" || req.model == "" then
    ([], HandlerResp.httpError 400 ("prompt and model fields are required"))
  else
    match parseModelName req.model with
    | Except.error e => ([], HandlerResp.httpError 400 e)
    | Except.ok (providerName, modelName) =>
      match findProvider providerName with
      | none => ([], HandlerResp.httpError 400 ("provider not found or not configured"))
      | some prov =>
        let input0 := apiBaseInput req modelName
        if req.imageURL == "" then apiGenerateSection req c input0
        else
          match c.download with
          | none => ([], HandlerResp.httpError 400 ("failed to download image from URL"))
          | some downloaded =>
            if downloaded.isEmpty then apiGenerateSection req c input0
            else
              match c.processImage downloaded with
              | none => ([], HandlerResp.httpError 500 ("failed to process image"))
              | some processed =>
                let input1 := { input0 with imageBytes := processed }
                if prov.requiresImageURL then
                  if !c.hostConfigured then
                    ([], HandlerResp.httpError 500 ("image hosting is not configured"))
                  else
                    match c.uploadTemp with
                    | none => ([], HandlerResp.httpError 500 ("failed to upload temporary image"))
                    | some (url, id) =>
                      let input2 := { input1 with imageURL := url }
                      let r := apiGenerateSection req c input2
                      (Ev.uploadTempImage url id :: r.1, r.2)
                else apiGenerateSection req c input1

/-- What a provider adapter does first on a Generate call, before its first
HTTP request: either an early validation return or the network submit. -/
inductive AdapterStep
  | validationReject (msg : String)
  | networkSubmit
deriving DecidableEq

/-- The pre-network validation of each registered Generate implementation:
PollinationsAIProvider.Generate rejects a kontext request with no image URL,
FalAIProvider.Generate rejects any request with no image URL, while
DreamiflyProvider.Generate and ModelScopeProvider.Generate perform no image
validation at all and proceed straight to the HTTP call. -/
def adapterFirstStep (providerName : String) (input : GenerationInput) : AdapterStep :=
  if providerName == "Pollinations_ai" then
    if input.imageURL == "" && input.model == "kontext" then
      AdapterStep.validationReject ("model requires an image URL")
    else AdapterStep.networkSubmit
  else if providerName == "fal_ai" then
    if input.imageURL == "" then AdapterStep.validationReject ("image URL is required")
    else AdapterStep.networkSubmit
  else AdapterStep.networkSubmit

/-- Outcome of a generate request carrying no input image, up to the first
network request of the provider adapter. -/
inductive NoImageOutcome
  | requestRejected (msg : String)
  | adapterRejected (msg : String)
  | networkCall
deriving DecidableEq

/-- Composition of handleGenerate and the adapter for a request with no
image file and no image URL: parse the model, resolve the provider, build
the normalized input (the staging section is skipped because no image bytes
are present), apply the hard-coded image-required check, then take the
chosen Generate implementation up to its first network request. The prompt,
dimensions and seed never influence this path, so they are fixed to their
defaults here. -/
def webNoImageOutcome (fullModel : String) : NoImageOutcome :=
  match parseModelName fullModel with
  | Except.error e => NoImageOutcome.requestRejected e
  | Except.ok (providerName, modelName) =>
    match findProvider providerName with
    | none => NoImageOutcome.requestRejected ("provider not found or not configured")
    | some _ =>
      let input : GenerationInput :=
        { prompt := "", imageBytes := [], imageURL := "",
          width := 1024, height := 1024, model := modelName, seed := 0, steps := 0 }
      if requiresImageModel fullModel && input.imageBytes.isEmpty then
        NoImageOutcome.requestRejected ("model requires an image")
      else
        match adapterFirstStep providerName input with
        | AdapterStep.validationReject m => NoImageOutcome.adapterRejected m
        | AdapterStep.networkSubmit => NoImageOutcome.networkCall

/-- maxPollingAttempts from providers/utils.go. -/
def maxPollingAttempts : Nat := 90

/-- pollingInterval from providers/utils.go, in seconds. -/
def pollingIntervalSeconds : Nat := 5

/-- One poll of the ModelScope task endpoint, as the loop body of
ModelScopeProvider.Generate observes it: a transport failure, a non-200
status (logged and skipped), an unparsable 200 body, or a parsed task
response with its task_status, output_images and error message. -/
inductive MSPollResponse
  | netError
  | non200 (status : Int) (body : String)
  | badBody (body : String)
  | task (taskStatus : String) (outputImages : List String) (errMsg : String)
deriving DecidableEq

/-- A poll response on which the loop keeps polling: a non-200 status, or a
parsed task response whose status is none of SUCCEED, FAILED, CANCELED. -/
def MSPollResponse.isNonTerminal : MSPollResponse → Bool
  | MSPollResponse.non200 _ _ => true
  | MSPollResponse.task st _ _ =>
    !(st == "SUCCEED") && !(st == "FAILED") && !(st == "CANCELED")
  | _ => false

/-- How the ModelScope polling phase ends. -/
inductive MSPollOutcome
  | image (bytes : List Nat)
  | pollNetError
  | pollDecodeFail
  | succeededNoImage
  | backendFailed (msg : String)
  | downloadError
  | timedOut
deriving DecidableEq

/-- The polling loop of ModelScopeProvider.Generate: at most `remaining`
iterations, each sleeping pollingIntervalSeconds and then polling index i.
Returns the outcome, the number of polls performed and the seconds slept.
A transport failure or unparsable body aborts; SUCCEED downloads the first
output image; FAILED or CANCELED surfaces the backend error; any other
status, and any non-200 poll, continues; an exhausted budget times out. -/
def msPollLoop (download : String → Option (List Nat)) (polls : Nat → MSPollResponse) :
    Nat → Nat → MSPollOutcome × Nat × Nat
  | 0, _ => (MSPollOutcome.timedOut, 0, 0)
  | Nat.succ n, i =>
    match polls i with
    | MSPollResponse.netError => (MSPollOutcome.pollNetError, 1, pollingIntervalSeconds)
    | MSPollResponse.non200 _ _ =>
      let r := msPollLoop download polls n (i + 1)
      (r.1, r.2.1 + 1, r.2.2 + pollingIntervalSeconds)
    | MSPollResponse.badBody _ => (MSPollOutcome.pollDecodeFail, 1, pollingIntervalSeconds)
    | MSPollResponse.task st imgs emsg =>
      if st == "SUCCEED" then
        match imgs with
        | [] => (MSPollOutcome.succeededNoImage, 1, pollingIntervalSeconds)
        | u :: _ =>
          match download u with
          | some b => (MSPollOutcome.image b, 1, pollingIntervalSeconds)
          | none => (MSPollOutcome.downloadError, 1, pollingIntervalSeconds)
      else if st == "FAILED" || st == "CANCELED" then
        (MSPollOutcome.backendFailed emsg, 1, pollingIntervalSeconds)
      else
        let r := msPollLoop download polls n (i + 1)
        (r.1, r.2.1 + 1, r.2.2 + pollingIntervalSeconds)

/-- The whole polling phase of ModelScopeProvider.Generate, entered after a
successful task submission: poll from index 0 with the full attempt
budget. -/
def modelScopePoll (download : String → Option (List Nat)) (polls : Nat → MSPollResponse) :
    MSPollOutcome × Nat × Nat :=
  msPollLoop download polls maxPollingAttempts 0

/-- maxRetries from PollinationsAIProvider.Generate: 4 total attempts. -/
def paMaxRetries : Nat := 4

/-- retryInterval from PollinationsAIProvider.Generate, in seconds. -/
def paRetrySeconds : Nat := 3

/-- One attempt of the Pollinations.ai GET: a transport failure or a
response with its status, body and content type. -/
inductive HTTPAttempt
  | netError (msg : String)
  | resp (status : Int) (body : List Nat) (contentType : String)
deriving DecidableEq

/-- An attempt the retry loop treats as a failure: a transport error or any
non-200 status. -/
def HTTPAttempt.isFailure : HTTPAttempt → Bool
  | HTTPAttempt.netError _ => true
  | HTTPAttempt.resp st _ _ => !(st == 200)

/-- How PollinationsAIProvider.Generate ends. -/
inductive PAOutcome
  | success (bytes : List Nat) (format : String)
  | netFailure (msg : String)
  | httpFailure (status : Int) (body : List Nat)
deriving DecidableEq

/-- The error PollinationsAIProvider.Generate returns after exhausting its
retries, wrapping the given last observed attempt. -/
def asFailure : HTTPAttempt → PAOutcome
  | HTTPAttempt.netError m => PAOutcome.netFailure m
  | HTTPAttempt.resp st b _ => PAOutcome.httpFailure st b

/-- The format tag of a successful Pollinations.ai response: jpeg for an
image/jpeg content type, png otherwise. -/
def paFormatOf (contentType : String) : String :=
  if contentType == "image/jpeg" then "jpeg" else "png"

/-- The retry loop of PollinationsAIProvider.Generate: at most `remaining`
attempts at index i; a 200 response stops immediately with the body; any
failure retries after paRetrySeconds while attempts remain, and the last
attempt returns the last observed failure. Returns the outcome, the number
of attempts made and the seconds slept between attempts. -/
def paLoop (attempts : Nat → HTTPAttempt) : Nat → Nat → PAOutcome × Nat × Nat
  | 0, _ => (PAOutcome.netFailure (""), 0, 0)
  | Nat.succ n, i =>
    match attempts i with
    | HTTPAttempt.netError m =>
      if n = 0 then (PAOutcome.netFailure m, 1, 0)
      else
        let r := paLoop attempts n (i + 1)
        (r.1, r.2.1 + 1, r.2.2 + paRetrySeconds)
    | HTTPAttempt.resp st body ct =>
      if st == 200 then (PAOutcome.success body (paFormatOf ct), 1, 0)
      else if n = 0 then (PAOutcome.httpFailure st body, 1, 0)
      else
        let r := paLoop attempts n (i + 1)
        (r.1, r.2.1 + 1, r.2.2 + paRetrySeconds)

/-- The whole request phase of PollinationsAIProvider.Generate: attempt from
index 0 with the full retry budget. -/
def pollinationsCall (attempts : Nat → HTTPAttempt) : PAOutcome × Nat × Nat :=
  paLoop attempts paMaxRetries 0

/-- convertToWebP from the main package, with the two external codec steps
abstract: image.Decode into some decoded image type, then webp.Encode at
quality 80. The function fails exactly when either step fails. -/
def convertToWebPModel {Img : Type} (decode : List Nat → Option Img)
    (encode : Img → Option (List Nat)) (imageBytes : List Nat) : Option (List Nat) :=
  (decode imageBytes).bind encode

/-- How DreamiflyProvider.Generate turns a 200 response body into its
result. -/
inductive DreamiflyBodyResult
  | rawBody (bytes : List Nat)
  | decodedDataURL (bytes : List Nat)
  | protocolError (msg : String)
deriving DecidableEq

/-- The response handling of DreamiflyProvider.Generate on a 200 status.
`parsedImageURL` is the result of json.Unmarshal of the body into the
imageUrl response shape: none when the body is not JSON of that shape,
some of the imageUrl field value (possibly empty) otherwise. `b64decode` is
base64.StdEncoding.DecodeString. A body that is not JSON with a non-empty
imageUrl is returned verbatim as the image bytes; a non-empty imageUrl must
be a data URL, whose payload after the first comma is base64-decoded. -/
def dreamiflyHandleBody (b64decode : String → Option (List Nat))
    (respBody : List Nat) (parsedImageURL : Option String) : DreamiflyBodyResult :=
  match parsedImageURL with
  | some url =>
    if url == "" then DreamiflyBodyResult.rawBody respBody
    else if strStartsWith url ("data:image/") then
      match splitAtFirst (',') url.data with
      | some (_, afterComma) =>
        match b64decode (String.mk afterComma) with
        | some d => DreamiflyBodyResult.decodedDataURL d
        | none => DreamiflyBodyResult.protocolError ("failed to decode base64 image data")
      | none => DreamiflyBodyResult.protocolError ("invalid data URL format")
    else DreamiflyBodyResult.protocolError ("unexpected image URL format")
  | none => DreamiflyBodyResult.rawBody respBody

/-! Structural lemmas about the handler traces, shared by the claim
theorems below. -/

theorem webBaseInput_width (form : WebForm) (mn : String) :
    (webBaseInput form mn).width = orDefault1024 form.widthField := by
  unfold webBaseInput; cases form.stepsField <;> cases form.seedField <;> rfl

theorem webBaseInput_height (form : WebForm) (mn : String) :
    (webBaseInput form mn).height = orDefault1024 form.heightField := by
  unfold webBaseInput; cases form.stepsField <;> cases form.seedField <;> rfl

/-- The generation section emits no staging event: its trace is empty, the
provider call alone, or the provider call followed by the final upload. -/
theorem generateSection_events (form : WebForm) (c : WebCollab) (input : GenerationInput) :
    (generateSection form c input).1 = [] ∨
    (generateSection form c input).1 = [Ev.callProvider input] ∨
    (generateSection form c input).1 = [Ev.callProvider input, Ev.uploadFinalImage] := by
  unfold generateSection
  dsimp only
  split
  · exact Or.inl rfl
  · split
    · exact Or.inr (Or.inl rfl)
    · split
      · exact Or.inr (Or.inl rfl)
      · split
        · exact Or.inr (Or.inl rfl)
        · split
          · exact Or.inr (Or.inl rfl)
          · split
            · exact Or.inr (Or.inr rfl)
            · exact Or.inr (Or.inr rfl)

theorem generateSection_call {form : WebForm} {c : WebCollab} {input i : GenerationInput}
    (h : Ev.callProvider i ∈ (generateSection form c input).1) : i = input := by
  rcases generateSection_events form c input with h1 | h1 | h1 <;> rw [h1] at h <;> simp_all

theorem generateSection_no_upload {form : WebForm} {c : WebCollab} {input : GenerationInput}
    {url id : String} (h : Ev.uploadTempImage url id ∈ (generateSection form c input).1) :
    False := by
  rcases generateSection_events form c input with h1 | h1 | h1 <;> rw [h1] at h <;> simp_all

theorem generateSection_no_delete (form : WebForm) (c : WebCollab) (input : GenerationInput) :
    countDeletes (generateSection form c input).1 = 0 := by
  rcases generateSection_events form c input with h1 | h1 | h1 <;> rw [h1] <;> rfl

theorem apiGenerateSection_events (req : APIRequest) (c : APICollab) (input : GenerationInput) :
    (apiGenerateSection req c input).1 = [] ∨
    (apiGenerateSection req c input).1 = [Ev.callProvider input] ∨
    (apiGenerateSection req c input).1 = [Ev.callProvider input, Ev.uploadFinalImage] := by
  unfold apiGenerateSection
  dsimp only
  split
  · exact Or.inl rfl
  · split
    · exact Or.inr (Or.inl rfl)
    · split
      · exact Or.inr (Or.inl rfl)
      · split
        · exact Or.inr (Or.inl rfl)
        · split
          · exact Or.inr (Or.inr rfl)
          · exact Or.inr (Or.inr rfl)

theorem apiGenerateSection_call {req : APIRequest} {c : APICollab} {input i : GenerationInput}
    (h : Ev.callProvider i ∈ (apiGenerateSection req c input).1) : i = input := by
  rcases apiGenerateSection_events req c input with h1 | h1 | h1 <;> rw [h1] at h <;> simp_all

theorem apiGenerateSection_no_delete (req : APIRequest) (c : APICollab) (input : GenerationInput) :
    countDeletes (apiGenerateSection req c input).1 = 0 := by
  rcases apiGenerateSection_events req c input with h1 | h1 | h1 <;> rw [h1] <;> rfl

/-- Every run of handleGenerate has one of three trace shapes: an early
abort with no events, an unstaged run of the generation section, or a
staging upload followed by the generation section and the guarded deferred
delete; in the staged shape the provider input carries the processed image
bytes and the staging URL. -/
theorem handleGenerate_shape (form : WebForm) (c : WebCollab) :
    (∃ resp, handleGenerateModel form c = ([], resp)) ∨
    (∃ input, (handleGenerateModel form c).1 = (generateSection form c input).1 ∧
       input.width = orDefault1024 form.widthField ∧
       input.height = orDefault1024 form.heightField) ∨
    (∃ input url id,
       (handleGenerateModel form c).1 =
         Ev.uploadTempImage url id :: (generateSection form c input).1 ++
           (if id == "" then [] else [Ev.deleteTempImage id]) ∧
       c.processImage form.imageBytes = some input.imageBytes ∧
       input.imageURL = url ∧
       input.width = orDefault1024 form.widthField ∧
       input.height = orDefault1024 form.heightField) := by
  unfold handleGenerateModel
  dsimp only
  split
  · exact Or.inl ⟨_, rfl⟩
  · split
    · exact Or.inl ⟨_, rfl⟩
    · split
      · exact Or.inr (Or.inl ⟨_, rfl, webBaseInput_width _ _, webBaseInput_height _ _⟩)
      · split
        · exact Or.inl ⟨_, rfl⟩
        · split
          · split
            · exact Or.inl ⟨_, rfl⟩
            · split
              · exact Or.inl ⟨_, rfl⟩
              · exact Or.inr (Or.inr ⟨_, _, _, rfl, by assumption, rfl,
                  webBaseInput_width _ _, webBaseInput_height _ _⟩)
          · exact Or.inr (Or.inl ⟨_, rfl, webBaseInput_width _ _, webBaseInput_height _ _⟩)

/-- Every run of handleAPIGenerate has one of three trace shapes: an early
abort, an unstaged run of the generation section, or a staging upload
followed by the generation section; no shape contains a staging delete. -/
theorem apiGenerate_shape (req : APIRequest) (c : APICollab) :
    (∃ resp, handleAPIGenerateModel req c = ([], resp)) ∨
    (∃ input, (handleAPIGenerateModel req c).1 = (apiGenerateSection req c input).1 ∧
       input.width = orDefault1024 req.width ∧
       input.height = orDefault1024 req.height) ∨
    (∃ input url id,
       (handleAPIGenerateModel req c).1 =
         Ev.uploadTempImage url id :: (apiGenerateSection req c input).1 ∧
       input.width = orDefault1024 req.width ∧
       input.height = orDefault1024 req.height) := by
  unfold handleAPIGenerateModel
  dsimp only
  split
  · exact Or.inl ⟨_, rfl⟩
  · split
    · exact Or.inl ⟨_, rfl⟩
    · split
      · exact Or.inl ⟨_, rfl⟩
      · split
        · exact Or.inr (Or.inl ⟨_, rfl, rfl, rfl⟩)
        · split
          · exact Or.inl ⟨_, rfl⟩
          · split
            · exact Or.inr (Or.inl ⟨_, rfl, rfl, rfl⟩)
            · split
              · exact Or.inl ⟨_, rfl⟩
              · split
                · split
                  · exact Or.inl ⟨_, rfl⟩
                  · split
                    · exact Or.inl ⟨_, rfl⟩
                    · exact Or.inr (Or.inr ⟨_, _, _, rfl, rfl, rfl⟩)
                · exact Or.inr (Or.inl ⟨_, rfl, rfl, rfl⟩)

/-! Lemmas about the two retry and polling loops. -/

theorem paLoop_all_fail (rs : Nat → HTTPAttempt) (n i : Nat) (hn : 0 < n)
    (hf : ∀ j, j < n → (rs (i + j)).isFailure = true) :
    paLoop rs n i = (asFailure (rs (i + (n - 1))), n, paRetrySeconds * (n - 1)) := by
  induction n generalizing i with
  | zero => exact absurd hn (by omega)
  | succ n ih =>
    have h0 := hf 0 (by omega)
    simp only [Nat.add_zero] at h0
    cases n with
    | zero =>
      unfold paLoop
      cases hr : rs i with
      | netError m => simp [asFailure, hr]
      | resp st b ct =>
        rw [hr] at h0
        simp only [HTTPAttempt.isFailure, Bool.not_eq_true'] at h0
        simp [asFailure, hr, h0]
    | succ m =>
      unfold paLoop
      have hrec := ih (i + 1) (by omega) (fun j hj => by
        have := hf (j + 1) (by omega)
        simpa [Nat.add_assoc, Nat.add_comm 1 j] using this)
      have hix : i + 1 + (m + 1 - 1) = i + (m + 1 + 1 - 1) := by omega
      rw [hix] at hrec
      have harith : paRetrySeconds * (m + 1 - 1) + paRetrySeconds = paRetrySeconds * (m + 1 + 1 - 1) := by
        simp only [paRetrySeconds]
        omega
      cases hr : rs i with
      | netError m2 =>
        dsimp only
        rw [if_neg (by omega), hrec]
        rw [show m + 1 + 1 = (m + 1) + 1 from rfl]
        exact congrArg _ (congrArg _ harith)
      | resp st b ct =>
        rw [hr] at h0
        simp only [HTTPAttempt.isFailure, Bool.not_eq_true'] at h0
        dsimp only
        rw [if_neg (by simp [h0]), if_neg (by omega), hrec]
        exact congrArg _ (congrArg _ harith)

theorem paLoop_attempts_le (rs : Nat → HTTPAttempt) (n i : Nat) :
    (paLoop rs n i).2.1 ≤ n := by
  induction n generalizing i with
  | zero => simp [paLoop]
  | succ n ih =>
    unfold paLoop
    cases rs i with
    | netError m =>
      dsimp only
      split
      · exact Nat.succ_le_succ (Nat.zero_le n)
      · exact Nat.succ_le_succ (ih (i + 1))
    | resp st b ct =>
      dsimp only
      split
      · exact Nat.succ_le_succ (Nat.zero_le n)
      · split
        · exact Nat.succ_le_succ (Nat.zero_le n)
        · exact Nat.succ_le_succ (ih (i + 1))

theorem paLoop_first_success (rs : Nat → HTTPAttempt) (b : List Nat) (ct : String)
    (k : Nat) :
    ∀ n i, k < n → (∀ j, j < k → (rs (i + j)).isFailure = true) →
    rs (i + k) = HTTPAttempt.resp 200 b ct →
    paLoop rs n i = (PAOutcome.success b (paFormatOf ct), k + 1, paRetrySeconds * k) := by
  induction k with
  | zero =>
    intro n i hk hf hr
    cases n with
    | zero => omega
    | succ n =>
      unfold paLoop
      simp only [Nat.add_zero] at hr
      rw [hr]
      simp
  | succ k ih =>
    intro n i hk hf hr
    cases n with
    | zero => omega
    | succ n =>
      have h0 := hf 0 (by omega)
      simp only [Nat.add_zero] at h0
      have hn0 : n ≠ 0 := by
        intro h
        subst h
        omega
      unfold paLoop
      have hrec := ih n (i + 1) (by omega) (fun j hj => by
        have := hf (j + 1) (by omega)
        simpa [Nat.add_assoc, Nat.add_comm 1 j] using this)
        (by
          have hx : i + 1 + k = i + (k + 1) := by omega
          rw [hx]
          exact hr)
      have harith : paRetrySeconds * k + paRetrySeconds = paRetrySeconds * (k + 1) := by
        simp only [paRetrySeconds]
        omega
      cases hri : rs i with
      | netError m2 =>
        dsimp only
        rw [if_neg hn0, hrec]
        exact congrArg _ (congrArg _ harith)
      | resp st b2 ct2 =>
        rw [hri] at h0
        simp only [HTTPAttempt.isFailure, Bool.not_eq_true'] at h0
        dsimp only
        rw [if_neg (by simp [h0]), if_neg hn0, hrec]
        exact congrArg _ (congrArg _ harith)

theorem msPollLoop_attempts_le (d : String → Option (List Nat)) (p : Nat → MSPollResponse)
    (n i : Nat) : (msPollLoop d p n i).2.1 ≤ n := by
  induction n generalizing i with
  | zero => simp [msPollLoop]
  | succ n ih =>
    unfold msPollLoop
    cases p i with
    | netError => exact Nat.succ_le_succ (Nat.zero_le n)
    | non200 st b => exact Nat.succ_le_succ (ih (i + 1))
    | badBody b => exact Nat.succ_le_succ (Nat.zero_le n)
    | task st imgs emsg =>
      dsimp only
      split
      · split
        · exact Nat.succ_le_succ (Nat.zero_le n)
        · split
          · exact Nat.succ_le_succ (Nat.zero_le n)
          · exact Nat.succ_le_succ (Nat.zero_le n)
      · split
        · exact Nat.succ_le_succ (Nat.zero_le n)
        · exact Nat.succ_le_succ (ih (i + 1))

theorem msPollLoop_pending (d : String → Option (List Nat)) (p : Nat → MSPollResponse)
    (hp : ∀ j, (p j).isNonTerminal = true) (n i : Nat) :
    msPollLoop d p n i = (MSPollOutcome.timedOut, n, pollingIntervalSeconds * n) := by
  induction n generalizing i with
  | zero => rfl
  | succ n ih =>
    unfold msPollLoop
    have h := hp i
    have harith : pollingIntervalSeconds * n + pollingIntervalSeconds =
        pollingIntervalSeconds * (n + 1) := by
      simp only [pollingIntervalSeconds]
      omega
    cases hpi : p i with
    | netError => rw [hpi] at h; simp [MSPollResponse.isNonTerminal] at h
    | badBody b => rw [hpi] at h; simp [MSPollResponse.isNonTerminal] at h
    | non200 st b =>
      dsimp only
      rw [ih (i + 1)]
      exact congrArg _ (congrArg _ harith)
    | task st imgs emsg =>
      rw [hpi] at h
      simp only [MSPollResponse.isNonTerminal, Bool.and_eq_true, Bool.not_eq_true'] at h
      obtain ⟨⟨h1, h2⟩, h3⟩ := h
      dsimp only
      rw [if_neg (by simp [h1]), if_neg (by simp [h2, h3]), ih (i + 1)]
      exact congrArg _ (congrArg _ harith)

/-! The claim theorems. -/

/-- Claim C2: for every submitted asynchronous ModelScope generation task,
the adapter polls at a fixed 5-second interval with a budget of 90 attempts;
with a backend that never reaches a terminal status it makes exactly 90
polls (450 seconds of waiting), never more, and reports a timeout outcome
that is distinct from any backend-reported failure. -/
theorem c2_modelscope_polling_budget :
    maxPollingAttempts = 90 ∧ pollingIntervalSeconds = 5 ∧
    (∀ (download : String → Option (List Nat)) (polls : Nat → MSPollResponse),
       (modelScopePoll download polls).2.1 ≤ 90) ∧
    (∀ (download : String → Option (List Nat)) (polls : Nat → MSPollResponse),
       (∀ j, (polls j).isNonTerminal = true) →
       modelScopePoll download polls = (MSPollOutcome.timedOut, 90, 450)) ∧
    (∀ msg, MSPollOutcome.timedOut ≠ MSPollOutcome.backendFailed msg) := by
  refine ⟨rfl, rfl, ?_, ?_, ?_⟩
  · intro d p
    exact msPollLoop_attempts_le d p 90 0
  · intro d p hp
    have h := msPollLoop_pending d p hp 90 0
    simpa [pollingIntervalSeconds] using h
  · intro msg h
    exact MSPollOutcome.noConfusion h

/-- A backend that always answers a 200 status with a PENDING task. -/
def c2PendingPolls : Nat → MSPollResponse := fun _ => MSPollResponse.task ("PENDING") [] ("")

/-- A download collaborator that always fails (never reached here). -/
def c2NoDownload : String → Option (List Nat) := fun _ => none

/-- Witness for C2: an always-pending backend times out at exactly 90 polls. -/
theorem c2_witness :
    (∀ j, (c2PendingPolls j).isNonTerminal = true) ∧
    modelScopePoll c2NoDownload c2PendingPolls = (MSPollOutcome.timedOut, 90, 450) :=
  ⟨fun _ => rfl,
   c2_modelscope_polling_budget.2.2.2.1 c2NoDownload c2PendingPolls (fun _ => rfl)⟩

/-- Claim C6: the Pollinations.ai generate call makes at most 4 total
attempts; it stops at the first 200 response, returning its body and format
after exactly as many attempts as failures preceded it, with a 3-second
backoff between consecutive attempts; when all 4 attempts fail it returns
an error carrying the last observed failure, after 9 seconds of backoff. -/
theorem c6_pollinations_retry_policy :
    paMaxRetries = 4 ∧ paRetrySeconds = 3 ∧
    (∀ rs : Nat → HTTPAttempt, (pollinationsCall rs).2.1 ≤ 4) ∧
    (∀ (rs : Nat → HTTPAttempt) (k : Nat) (b : List Nat) (ct : String),
       k < 4 → (∀ j, j < k → (rs j).isFailure = true) →
       rs k = HTTPAttempt.resp 200 b ct →
       pollinationsCall rs = (PAOutcome.success b (paFormatOf ct), k + 1, paRetrySeconds * k)) ∧
    (∀ rs : Nat → HTTPAttempt, (∀ j, j < 4 → (rs j).isFailure = true) →
       pollinationsCall rs = (asFailure (rs 3), 4, 9)) := by
  refine ⟨rfl, rfl, ?_, ?_, ?_⟩
  · intro rs
    exact paLoop_attempts_le rs 4 0
  · intro rs k b ct hk hf hr
    exact paLoop_first_success rs b ct k 4 0 hk
      (fun j hj => by simpa using hf j hj) (by simpa using hr)
  · intro rs hf
    have h := paLoop_all_fail rs 4 0 (by omega) (fun j hj => by simpa using hf j hj)
    simpa [paRetrySeconds] using h

/-- A transport that fails twice and then answers 200 with a jpeg body. -/
def c6Attempts : Nat → HTTPAttempt := fun j =>
  if j < 2 then HTTPAttempt.netError ("x") else HTTPAttempt.resp 200 [7] ("image/jpeg")

/-- Witness for C6: two transport failures then a 200 give success at the
third attempt with two backoff sleeps. -/
theorem c6_witness :
    c6Attempts 2 = HTTPAttempt.resp 200 [7] ("image/jpeg") ∧
    pollinationsCall c6Attempts =
      (PAOutcome.success [7] (paFormatOf ("image/jpeg")), 3, paRetrySeconds * 2) :=
  ⟨rfl,
   c6_pollinations_retry_policy.2.2.2.1 c6Attempts
     2 [7] ("image/jpeg") (by omega) (fun j hj => by interval_cases j <;> rfl) rfl⟩

/-- Claim C7: when output normalization fails — at the decode step or at the
WebP encode step — convertToWebP returns no result and the handler falls
back to the untouched provider bytes, completing the request successfully
(here: an inline delivery of exactly the original bytes). -/
theorem c7_webp_fallback {Img : Type} (decode : List Nat → Option Img)
    (encode : Img → Option (List Nat)) (form : WebForm) (c : WebCollab)
    (input : GenerationInput) (out : List Nat)
    (hconv : c.convert = convertToWebPModel decode encode)
    (hfail : decode out = none ∨ ∃ img, decode out = some img ∧ encode img = none)
    (hcheck : (requiresImageModel form.fullModel && input.imageBytes.isEmpty) = false)
    (hgen : c.generate input = some out)
    (hne : out ≠ [])
    (hinline : c.uploadToHost = false) :
    convertToWebPModel decode encode out = none ∧
    generateSection form c input = ([Ev.callProvider input], HandlerResp.inlineImage out) := by
  have hcn : convertToWebPModel decode encode out = none := by
    rcases hfail with h | ⟨img, h1, h2⟩
    · simp [convertToWebPModel, h]
    · simp [convertToWebPModel, h1, h2]
  refine ⟨hcn, ?_⟩
  have hemp : out.isEmpty = false := by
    cases out with
    | nil => exact absurd rfl hne
    | cons a t => rfl
  simp [generateSection, hcheck, hgen, hconv, hcn, hemp, hinline]

/-- Witness inputs for C7: a run whose conversion always fails. -/
def c7Form : WebForm :=
  { fullModel := "Dreamifly/Qwen-Image", prompt := "p", widthField := 0, heightField := 0,
    stepsField := none, seedField := none, imageBytes := [], randSeed := 1 }

def c7Collab : WebCollab :=
  { processImage := fun b => some b, hostConfigured := true, uploadTemp := none,
    generate := fun _ => some [9],
    convert := convertToWebPModel (fun _ => (none : Option Unit)) (fun _ => none),
    uploadToHost := false, uploadFinal := fun _ => none }

def c7Input : GenerationInput :=
  { prompt := "p", imageBytes := [], imageURL := "", width := 1024, height := 1024,
    model := "Qwen-Image", seed := 1, steps := 0 }

/-- Witness for C7: a failing decode leads to inline delivery of the
original provider bytes. -/
theorem c7_witness :
    convertToWebPModel (fun _ => (none : Option Unit)) (fun _ => none) [9] = none ∧
    generateSection c7Form c7Collab c7Input =
      ([Ev.callProvider c7Input], HandlerResp.inlineImage [9]) :=
  c7_webp_fallback (fun _ => (none : Option Unit)) (fun _ => none) c7Form c7Collab c7Input [9]
    rfl (Or.inl rfl) (by decide) rfl (by decide) rfl

/-- Claim C9: the Pollinations.ai adapter omits the seed query parameter
exactly when the input seed is 0, and includes it with the printed seed
value for every non-zero seed; a requested seed of 0 therefore produces
the same parameter list as an unset seed. -/
theorem c9_seed_param (input : GenerationInput) :
    (input.seed = 0 → ∀ v, ("seed", v) ∉ pollinationsQueryParams input) ∧
    (input.seed ≠ 0 → ("seed", toString input.seed) ∈ pollinationsQueryParams input) := by
  constructor
  · intro h v hmem
    by_cases himg : (input.imageURL == "") = true <;>
      simp [pollinationsQueryParams, h, himg] at hmem
  · intro h
    by_cases himg : (input.imageURL == "") = true <;>
      simp [pollinationsQueryParams, h, himg]

/-- Witness for C9: the non-zero seed 5 appears as a query parameter. -/
theorem c9_witness :
    (({ prompt := "p", imageBytes := [], imageURL := "", width := 1024, height := 1024,
        model := "flux", seed := 5, steps := 0 } : GenerationInput).seed ≠ 0) ∧
    ("seed", toString (5 : Int)) ∈ pollinationsQueryParams
      { prompt := "p", imageBytes := [], imageURL := "", width := 1024, height := 1024,
        model := "flux", seed := 5, steps := 0 } :=
  ⟨by decide, (c9_seed_param _).2 (by decide)⟩

/-- Claim C10: on a 200 Dreamifly response whose body is not JSON with a
non-empty imageUrl, the adapter returns the raw body bytes verbatim with no
error and no validation; base64 decoding happens only for a body that is
JSON with a non-empty data-URL imageUrl. -/
theorem c10_dreamifly_body (b64decode : String → Option (List Nat))
    (respBody : List Nat) (parsedImageURL : Option String) :
    ((parsedImageURL = none ∨ parsedImageURL = some "") →
      dreamiflyHandleBody b64decode respBody parsedImageURL =
        DreamiflyBodyResult.rawBody respBody) ∧
    (∀ d, dreamiflyHandleBody b64decode respBody parsedImageURL =
        DreamiflyBodyResult.decodedDataURL d →
      ∃ url pre post, parsedImageURL = some url ∧ url ≠ "" ∧
        strStartsWith url ("data:image/") = true ∧
        splitAtFirst (',') url.data = some (pre, post) ∧
        b64decode (String.mk post) = some d) := by
  constructor
  · rintro (h | h) <;> subst h <;> simp [dreamiflyHandleBody]
  · intro d hd
    cases parsedImageURL with
    | none => simp [dreamiflyHandleBody] at hd
    | some url =>
      by_cases hu : (url == "") = true
      · simp [dreamiflyHandleBody, hu] at hd
      · by_cases hsw : strStartsWith url ("data:image/") = true
        · cases hsp : splitAtFirst (',') url.data with
          | none => simp [dreamiflyHandleBody, hu, hsw, hsp] at hd
          | some pr =>
            obtain ⟨pre, post⟩ := pr
            cases hb : b64decode (String.mk post) with
            | none => simp [dreamiflyHandleBody, hu, hsw, hsp, hb] at hd
            | some d2 =>
              simp only [dreamiflyHandleBody, hu, hsw, hsp, hb, if_neg,
                Bool.not_eq_true] at hd
              refine ⟨url, pre, post, rfl, by simpa using hu, hsw, hsp, ?_⟩
              rw [hb]
              cases hd
              rfl
        · simp [dreamiflyHandleBody, hu, hsw] at hd

/-- Witness for C10: an unparsable body is returned verbatim. -/
theorem c10_witness :
    dreamiflyHandleBody (fun _ => some [1]) [9, 9] none = DreamiflyBodyResult.rawBody [9, 9] :=
  (c10_dreamifly_body (fun _ => some [1]) [9, 9] none).1 (Or.inl rfl)

/-- Exactly one of the two image fields is populated. -/
def exactlyOneImageField (i : GenerationInput) : Prop :=
  (i.imageBytes ≠ [] ∧ i.imageURL = "") ∨ (i.imageBytes = [] ∧ i.imageURL ≠ "")

instance (i : GenerationInput) : Decidable (exactlyOneImageField i) := by
  unfold exactlyOneImageField
  infer_instance

/-- Request, collaborators and resulting provider input of a staged run used
by the C1 theorems: an image-carrying request to the by-URL fal_ai
provider. -/
def c1Form : WebForm :=
  { fullModel := "fal_ai/bytedance/seedream/v4/edit", prompt := "p", widthField := 0,
    heightField := 0, stepsField := none, seedField := none, imageBytes := [1], randSeed := 7 }

def c1Collab : WebCollab :=
  { processImage := fun b => some b, hostConfigured := true,
    uploadTemp := some ("http://u/i.jpg", "tid"), generate := fun _ => some [2],
    convert := fun _ => none, uploadToHost := false, uploadFinal := fun _ => none }

def c1Input : GenerationInput :=
  { prompt := "p", imageBytes := [1], imageURL := "http://u/i.jpg", width := 1024, height := 1024,
    model := "bytedance/seedream/v4/edit", seed := 7, steps := 0 }

/-- Counterexample to claim C1 as stated: a staged request whose provider
input does not have exactly one of the two image fields populated — the
handler never clears the bytes after setting the staged URL. -/
theorem c1_cex :
    ¬ (∀ (form : WebForm) (c : WebCollab) (i : GenerationInput) (url id : String),
        Ev.uploadTempImage url id ∈ (handleGenerateModel form c).1 →
        Ev.callProvider i ∈ (handleGenerateModel form c).1 →
        exactlyOneImageField i) := by
  intro h
  have hx := h c1Form c1Collab c1Input ("http://u/i.jpg") ("tid") (by decide) (by decide)
  exact absurd hx (by decide)

/-- Claim C1, amended: after staging, the normalized request has its image
URL set to the staged URL while the image bytes still hold the processed
input image — both fields are populated simultaneously whenever the staged
URL and the processed bytes are non-empty, so exactly-one never holds on
such runs. -/
theorem c1_staging_populates_both (form : WebForm) (c : WebCollab) (i : GenerationInput)
    (url id : String)
    (hup : Ev.uploadTempImage url id ∈ (handleGenerateModel form c).1)
    (hcall : Ev.callProvider i ∈ (handleGenerateModel form c).1) :
    i.imageURL = url ∧ c.processImage form.imageBytes = some i.imageBytes ∧
    (url ≠ "" → i.imageBytes ≠ [] → ¬ exactlyOneImageField i) := by
  rcases handleGenerate_shape form c with ⟨resp, hsh⟩ | ⟨input, hsh, _, _⟩ |
    ⟨input, url2, id2, hsh, hpi, hiu, _, _⟩
  · rw [hsh] at hup
    simp at hup
  · rw [hsh] at hup
    exact absurd hup (fun hx => generateSection_no_upload hx)
  · rw [hsh] at hup hcall
    rw [List.mem_append, List.mem_cons] at hcall
    rcases hcall with (hbad | hcall) | hbad
    · exact absurd hbad (by simp)
    · have hi := generateSection_call hcall
      subst hi
      rw [List.mem_append, List.mem_cons] at hup
      rcases hup with (heq | hup) | hup
      · cases heq
        refine ⟨hiu, hpi, ?_⟩
        intro hu hb hone
        rcases hone with ⟨h1, h2⟩ | ⟨h1, h2⟩
        · rw [hiu] at h2
          exact hu h2
        · exact hb h1
      · exact absurd hup (fun hx => generateSection_no_upload hx)
      · split at hup <;> simp at hup
    · split at hbad <;> simp at hbad

/-- Witness for the amended C1: the staged concrete run has both fields
populated. -/
theorem c1_witness :
    Ev.uploadTempImage ("http://u/i.jpg") ("tid") ∈ (handleGenerateModel c1Form c1Collab).1 ∧
    c1Input.imageURL = "http://u/i.jpg" ∧
    c1Collab.processImage c1Form.imageBytes = some c1Input.imageBytes :=
  ⟨by decide,
   (c1_staging_populates_both c1Form c1Collab c1Input ("http://u/i.jpg") ("tid")
      (by decide) (by decide)).1,
   (c1_staging_populates_both c1Form c1Collab c1Input ("http://u/i.jpg") ("tid")
      (by decide) (by decide)).2.1⟩

/-- A staged v1 API run used by the C3 theorems. -/
def c3Req : APIRequest :=
  { prompt := "p", imageURL := "http://src/i.png", width := 0, height := 0,
    model := "fal_ai/bytedance/seedream/v4/edit", seed := 0, steps := 0, randSeed := 5 }

def c3Collab : APICollab :=
  { download := some [1], processImage := fun b => some b, hostConfigured := true,
    uploadTemp := some ("http://u/i.jpg", "tid"), generate := fun _ => some [2],
    convert := fun _ => none, uploadFinal := fun _ => some ("http://final") }

/-- Counterexample to claim C3 as stated: a v1 API request that stages an
image and completes successfully, yet never invokes the staging delete. -/
theorem c3_cex :
    ¬ (∀ (req : APIRequest) (c : APICollab) (url id : String),
        Ev.uploadTempImage url id ∈ (handleAPIGenerateModel req c).1 →
        countDeletes (handleAPIGenerateModel req c).1 = 1) := by
  intro h
  have hx := h c3Req c3Collab ("http://u/i.jpg") ("tid") (by decide)
  have hz : countDeletes (handleAPIGenerateModel c3Req c3Collab).1 = 0 := by decide
  rw [hx] at hz
  exact absurd hz (by decide)

/-- Claim C3, amended: on the web handler the staging delete runs exactly
once on every exit path after a staged upload with a non-empty image id
(and not at all when the host returned an empty id), while the v1 API
handler never invokes the staging delete on any path. -/
theorem c3_cleanup_policy :
    (∀ (form : WebForm) (c : WebCollab) (url id : String),
       Ev.uploadTempImage url id ∈ (handleGenerateModel form c).1 →
       countDeletes (handleGenerateModel form c).1 = (if id == "" then 0 else 1)) ∧
    (∀ (req : APIRequest) (c : APICollab),
       countDeletes (handleAPIGenerateModel req c).1 = 0) := by
  constructor
  · intro form c url id hup
    rcases handleGenerate_shape form c with ⟨resp, hsh⟩ | ⟨input, hsh, _, _⟩ |
      ⟨input, url2, id2, hsh, _, _, _, _⟩
    · rw [hsh] at hup
      simp at hup
    · rw [hsh] at hup
      exact absurd hup (fun hx => generateSection_no_upload hx)
    · rw [hsh] at hup ⊢
      rw [List.mem_append, List.mem_cons] at hup
      rcases hup with (heq | hup) | hup
      · cases heq
        have hgs := generateSection_no_delete form c input
        unfold countDeletes at hgs ⊢
        by_cases hid : (id == "") = true
        · rw [if_pos hid]
          simp [List.countP_append, List.countP_cons, Ev.isDelete, hgs, hid]
        · rw [if_neg hid]
          simp [List.countP_append, List.countP_cons, Ev.isDelete, hgs, hid]
      · exact absurd hup (fun hx => generateSection_no_upload hx)
      · split at hup <;> simp at hup
  · intro req c
    rcases apiGenerate_shape req c with ⟨resp, hsh⟩ | ⟨input, hsh, _, _⟩ |
      ⟨input, url2, id2, hsh, _, _⟩
    · rw [hsh]
      rfl
    · rw [hsh]
      exact apiGenerateSection_no_delete req c input
    · rw [hsh]
      have hgs := apiGenerateSection_no_delete req c input
      unfold countDeletes at hgs ⊢
      simp [List.countP_cons, Ev.isDelete, hgs]

/-- A staged web run used by the C3 witness. -/
def c3WebForm : WebForm :=
  { fullModel := "Modelscope/Qwen/Qwen-Image-Edit", prompt := "p", widthField := 0,
    heightField := 0, stepsField := none, seedField := none, imageBytes := [3], randSeed := 9 }

def c3WebCollab : WebCollab :=
  { processImage := fun b => some b, hostConfigured := true,
    uploadTemp := some ("http://u/i.jpg", "tid"), generate := fun _ => none,
    convert := fun _ => none, uploadToHost := false, uploadFinal := fun _ => none }

/-- Witness for the amended C3: a staged web run with a failing adapter
still deletes exactly once; the staged API run deletes zero times. -/
theorem c3_witness :
    Ev.uploadTempImage ("http://u/i.jpg") ("tid") ∈
      (handleGenerateModel c3WebForm c3WebCollab).1 ∧
    countDeletes (handleGenerateModel c3WebForm c3WebCollab).1 = 1 ∧
    countDeletes (handleAPIGenerateModel c3Req c3Collab).1 = 0 :=
  ⟨by decide,
   by
     have h := c3_cleanup_policy.1 c3WebForm c3WebCollab ("http://u/i.jpg") ("tid") (by decide)
     simpa using h,
   c3_cleanup_policy.2 c3Req c3Collab⟩

/-- An over-sized request to the Pollinations.ai flux model (declared
maximum 1024) used by the C4 theorems. -/
def c4Form : WebForm :=
  { fullModel := "Pollinations_ai/flux", prompt := "a cat", widthField := 4096,
    heightField := 0, stepsField := none, seedField := none, imageBytes := [], randSeed := 7 }

def c4Collab : WebCollab :=
  { processImage := fun b => some b, hostConfigured := true, uploadTemp := none,
    generate := fun _ => none, convert := fun _ => none, uploadToHost := false,
    uploadFinal := fun _ => none }

def c4Input : GenerationInput :=
  { prompt := "a cat", imageBytes := [], imageURL := "", width := 4096, height := 1024,
    model := "flux", seed := 7, steps := 0 }

/-- Counterexample to claim C4 as stated: a request of width 4096 routed to
a model whose declared maximum width is 1024 reaches the adapter with width
4096 — no clamping happens before dispatch. -/
theorem c4_cex :
    ¬ (∀ (form : WebForm) (c : WebCollab) (i : GenerationInput) (pn mn : String)
         (cap : ModelCapabilities),
        parseModelName form.fullModel = Except.ok (pn, mn) →
        findModelCapability pn mn = some cap →
        Ev.callProvider i ∈ (handleGenerateModel form c).1 →
        i.width ≤ cap.maxWidth ∧ i.height ≤ cap.maxHeight) := by
  intro h
  have hx := h c4Form c4Collab c4Input ("Pollinations_ai") ("flux")
    ⟨"flux", ["seed"], 1024, 1024⟩ rfl (by decide) (by decide)
  exact absurd hx.1 (by decide)

/-- Claim C4, amended: neither handler clamps dimensions against the
capability registry; the input handed to every adapter carries the request
width and height unchanged apart from the zero-to-1024 defaulting. -/
theorem c4_dimensions_not_clamped :
    (∀ (form : WebForm) (c : WebCollab) (i : GenerationInput),
       Ev.callProvider i ∈ (handleGenerateModel form c).1 →
       i.width = orDefault1024 form.widthField ∧ i.height = orDefault1024 form.heightField) ∧
    (∀ (req : APIRequest) (c : APICollab) (i : GenerationInput),
       Ev.callProvider i ∈ (handleAPIGenerateModel req c).1 →
       i.width = orDefault1024 req.width ∧ i.height = orDefault1024 req.height) := by
  constructor
  · intro form c i hcall
    rcases handleGenerate_shape form c with ⟨resp, hsh⟩ | ⟨input, hsh, hw, hh⟩ |
      ⟨input, url2, id2, hsh, _, _, hw, hh⟩
    · rw [hsh] at hcall
      simp at hcall
    · rw [hsh] at hcall
      have hi := generateSection_call hcall
      subst hi
      exact ⟨hw, hh⟩
    · rw [hsh] at hcall
      rw [List.mem_append, List.mem_cons] at hcall
      rcases hcall with (hbad | hcall) | hbad
      · exact absurd hbad (by simp)
      · have hi := generateSection_call hcall
        subst hi
        exact ⟨hw, hh⟩
      · split at hbad <;> simp at hbad
  · intro req c i hcall
    rcases apiGenerate_shape req c with ⟨resp, hsh⟩ | ⟨input, hsh, hw, hh⟩ |
      ⟨input, url2, id2, hsh, hw, hh⟩
    · rw [hsh] at hcall
      simp at hcall
    · rw [hsh] at hcall
      have hi := apiGenerateSection_call hcall
      subst hi
      exact ⟨hw, hh⟩
    · rw [hsh] at hcall
      rw [List.mem_cons] at hcall
      rcases hcall with hbad | hcall
      · exact absurd hbad (by simp)
      · have hi := apiGenerateSection_call hcall
        subst hi
        exact ⟨hw, hh⟩

/-- Witness for the amended C4: the over-sized request reaches the adapter
with its width forwarded unchanged. -/
theorem c4_witness :
    Ev.callProvider c4Input ∈ (handleGenerateModel c4Form c4Collab).1 ∧
    c4Input.width = orDefault1024 c4Form.widthField ∧
    c4Input.height = orDefault1024 c4Form.heightField :=
  ⟨by decide, (c4_dimensions_not_clamped.1 c4Form c4Collab c4Input (by decide)).1,
   (c4_dimensions_not_clamped.1 c4Form c4Collab c4Input (by decide)).2⟩

/-- Counterexample to claim C5 as stated: the Modelscope edit model has the
image capability, yet a request with no image bytes and no image URL
proceeds to the network submit with no validation error anywhere. -/
theorem c5_cex :
    ¬ (∀ p ∈ providerRegistry, ∀ cap ∈ p.models, "image" ∈ cap.supportedParams →
        webNoImageOutcome (p.name ++ "/" ++ cap.name) ≠ NoImageOutcome.networkCall) := by
  intro h
  exact h ⟨"Modelscope", true, modelScopeModels⟩ (by decide)
    ⟨"Qwen/Qwen-Image-Edit", ["seed", "image"], 2048, 2048⟩ (by decide) (by decide) (by decide)

/-- Claim C5, amended: for every edit-capable registered model except the
Modelscope one, a request with no image is rejected with a validation
error before any network call (by the handler for the Dreamifly edit
models, by the adapter for Pollinations.ai kontext and fal_ai); the
Modelscope edit model alone proceeds to the network submit unvalidated. -/
theorem c5_edit_validation :
    ∀ p ∈ providerRegistry, ∀ cap ∈ p.models, "image" ∈ cap.supportedParams →
      (p.name ≠ "Modelscope" →
         webNoImageOutcome (p.name ++ "/" ++ cap.name) ≠ NoImageOutcome.networkCall) ∧
      (p.name = "Modelscope" →
         webNoImageOutcome (p.name ++ "/" ++ cap.name) = NoImageOutcome.networkCall) := by
  decide

/-- Witness for the amended C5: the Pollinations.ai kontext model with no
image is rejected before any network call. -/
theorem c5_witness :
    (⟨"Pollinations_ai", true, pollinationsAIModels⟩ : RegisteredProvider) ∈ providerRegistry ∧
    webNoImageOutcome (("Pollinations_ai" : String) ++ "/" ++ "kontext") ≠
      NoImageOutcome.networkCall :=
  ⟨by decide,
   (c5_edit_validation ⟨"Pollinations_ai", true, pollinationsAIModels⟩ (by decide)
      ⟨"kontext", ["seed", "image"], 1024, 1024⟩ (by decide) (by decide)).1 (by decide)⟩
